import Mathlib

/-
  Verification development for the lead-processing pipeline
  (app/database/models.py, app/database/repository.py,
   app/agents/voice_agent.py, app/agents/data_entry_agent.py,
   app/config/settings.py).

  Times are modelled as seconds since an epoch (Nat).  Lead records keep the
  workflow and tracking columns; the static contact columns (name, phone,
  address, ...) are not observed by any property below and are elided.
-/

/-- Status enum from app/database/models.py (class LeadStatus). -/
inductive LeadStatus
  | PENDING
  | CALLING
  | CONFIRMED
  | NOT_INTERESTED
  | CALL_FAILED
  | ENTRY_IN_PROGRESS
  | ENTERED
  | ENTRY_FAILED
deriving DecidableEq, Repr

/-- Workflow and tracking columns of the leads table (class Lead in
app/database/models.py).  Nullable columns are Options. -/
structure Lead where
  id : Nat
  status : LeadStatus
  statusUpdatedAt : Nat
  createdAt : Nat
  callInitiatedAt : Option Nat
  callCompletedAt : Option Nat
  callDuration : Option Nat
  callRecordingUrl : Option String
  callNotes : Option String
  callAttempts : Nat
  entryInitiatedAt : Option Nat
  entryCompletedAt : Option Nat
  entryDuration : Option Nat
  entryNotes : Option String
  entryAttempts : Nat
  confirmedEmail : Option String
  confirmedAddress : Option String
  confirmedAreaOfInterest : Option String
  tcpaAccepted : Option Bool
  lastError : Option String
deriving DecidableEq, Repr

/-- The `additional_fields` dict passed to LeadRepository.update_lead_status.
An outer `none` means the key is absent from the dict; for columns to which
the agents may assign a Python None, the carried value is itself an Option. -/
structure UpdateFields where
  callInitiatedAt : Option Nat
  callCompletedAt : Option Nat
  callDuration : Option (Option Nat)
  callRecordingUrl : Option (Option String)
  callNotes : Option String
  callAttempts : Option Nat
  entryInitiatedAt : Option Nat
  entryCompletedAt : Option Nat
  entryDuration : Option Nat
  entryNotes : Option String
  entryAttempts : Option Nat
  confirmedEmail : Option (Option String)
  confirmedAddress : Option (Option String)
  confirmedAreaOfInterest : Option (Option String)
  tcpaAccepted : Option Bool
  lastError : Option String
deriving DecidableEq, Repr

/-- The empty `additional_fields` dict. -/
def UF0 : UpdateFields :=
  ⟨none, none, none, none, none, none, none, none,
   none, none, none, none, none, none, none, none⟩

/-- Effect of the per-key setattr loop in update_lead_status plus the
unconditional `lead.status = status` and `lead.status_updated_at = utcnow()`
assignments. -/
def applyUpdate (l : Lead) (st : LeadStatus) (f : UpdateFields) (now : Nat) : Lead :=
  { l with
    status := st
    statusUpdatedAt := now
    callInitiatedAt := match f.callInitiatedAt with | none => l.callInitiatedAt | some v => some v
    callCompletedAt := match f.callCompletedAt with | none => l.callCompletedAt | some v => some v
    callDuration := match f.callDuration with | none => l.callDuration | some v => v
    callRecordingUrl := match f.callRecordingUrl with | none => l.callRecordingUrl | some v => v
    callNotes := match f.callNotes with | none => l.callNotes | some v => some v
    callAttempts := match f.callAttempts with | none => l.callAttempts | some v => v
    entryInitiatedAt := match f.entryInitiatedAt with | none => l.entryInitiatedAt | some v => some v
    entryCompletedAt := match f.entryCompletedAt with | none => l.entryCompletedAt | some v => some v
    entryDuration := match f.entryDuration with | none => l.entryDuration | some v => some v
    entryNotes := match f.entryNotes with | none => l.entryNotes | some v => some v
    entryAttempts := match f.entryAttempts with | none => l.entryAttempts | some v => v
    confirmedEmail := match f.confirmedEmail with | none => l.confirmedEmail | some v => v
    confirmedAddress := match f.confirmedAddress with | none => l.confirmedAddress | some v => v
    confirmedAreaOfInterest := match f.confirmedAreaOfInterest with | none => l.confirmedAreaOfInterest | some v => v
    tcpaAccepted := match f.tcpaAccepted with | none => l.tcpaAccepted | some v => some v
    lastError := match f.lastError with | none => l.lastError | some v => some v }

namespace LeadRepository

/-- LeadRepository.update_lead_status (app/database/repository.py, lines
108-147): queries the lead by id (`.first()` updates the first matching row),
sets status and status_updated_at unconditionally, applies the additional
fields, and returns False only when no lead with the id exists.  There is no
condition on the current status of the lead. -/
def update_lead_status (db : List Lead) (leadId : Nat) (st : LeadStatus)
    (f : UpdateFields) (now : Nat) : List Lead × Bool :=
  match db with
  | [] => ([], false)
  | l :: rest =>
    if l.id == leadId then
      (applyUpdate l st f now :: rest, true)
    else
      let r := update_lead_status rest leadId st f now
      (l :: r.1, r.2)

/-- Relation ordering leads by created_at (ORDER BY created_at). -/
def createdLe (a b : Lead) : Prop := a.createdAt ≤ b.createdAt

instance : DecidableRel createdLe := fun a b => Nat.decLe a.createdAt b.createdAt

instance : IsTotal Lead createdLe := ⟨fun a b => Nat.le_total a.createdAt b.createdAt⟩

instance : IsTrans Lead createdLe := ⟨fun _ _ _ h h' => Nat.le_trans h h'⟩

/-- Relation ordering leads by status_updated_at (ORDER BY status_updated_at). -/
def statusUpdatedLe (a b : Lead) : Prop := a.statusUpdatedAt ≤ b.statusUpdatedAt

instance : DecidableRel statusUpdatedLe := fun a b => Nat.decLe a.statusUpdatedAt b.statusUpdatedAt

instance : IsTotal Lead statusUpdatedLe := ⟨fun a b => Nat.le_total a.statusUpdatedAt b.statusUpdatedAt⟩

instance : IsTrans Lead statusUpdatedLe := ⟨fun _ _ _ h h' => Nat.le_trans h h'⟩

/-- One hour, in seconds (timedelta(hours=1)). -/
def oneHour : Nat := 3600

/-- The WHERE clause of get_pending_leads_for_calling: status PENDING, call
never initiated or initiated more than an hour before `now`, and fewer than 3
call attempts. -/
def callEligible (now : Nat) (l : Lead) : Bool :=
  l.status == .PENDING
    && (match l.callInitiatedAt with
        | none => true
        | some t => decide (t < now - oneHour))
    && l.callAttempts < 3

/-- LeadRepository.get_pending_leads_for_calling (repository.py, lines 54-82):
filter by callEligible, ORDER BY created_at, LIMIT `limit`. -/
def get_pending_leads_for_calling (db : List Lead) (now : Nat) (limit : Nat) : List Lead :=
  ((db.filter (callEligible now)).insertionSort createdLe).take limit

/-- The WHERE clause of get_confirmed_leads_for_entry: status CONFIRMED and
fewer than 3 entry attempts.  No timestamp condition. -/
def entryEligible (l : Lead) : Bool :=
  l.status == .CONFIRMED && l.entryAttempts < 3

/-- LeadRepository.get_confirmed_leads_for_entry (repository.py, lines 84-106):
filter by entryEligible, ORDER BY status_updated_at, LIMIT `limit`. -/
def get_confirmed_leads_for_entry (db : List Lead) (limit : Nat) : List Lead :=
  ((db.filter entryEligible).insertionSort statusUpdatedLe).take limit

end LeadRepository

/-
  Configuration constants from app/config/settings.py.
-/

/-- settings.MAX_CONCURRENT_CALLS (settings.py, line 56). -/
def MAX_CONCURRENT_CALLS : Nat := 5

/-- settings.CALL_TIMEOUT_SECONDS (settings.py, line 58). -/
def CALL_TIMEOUT_SECONDS : Nat := 300

/-- settings.MAX_CONCURRENT_DATA_ENTRIES (settings.py, line 62). -/
def MAX_CONCURRENT_DATA_ENTRIES : Nat := 3

/-- The fixed poll interval of VoiceAgent._monitor_call (asyncio.sleep(5)). -/
def POLL_INTERVAL_SECONDS : Nat := 5

/-- Number of poll iterations of the monitoring loop before the wall-clock
deadline is reached, idealising each iteration as taking exactly the
5-second sleep: the loop body runs while 5*i < CALL_TIMEOUT_SECONDS. -/
def pollLimit : Nat := CALL_TIMEOUT_SECONDS / POLL_INTERVAL_SECONDS

/-
  String helpers modelling Python `in`, `.lower()` and `.strip()` on the byte
  strings involved (all ASCII here).
-/

/-- Python str startswith on character lists. -/
def charsBeginWith : List Char → List Char → Bool
  | _, [] => true
  | [], _ :: _ => false
  | a :: as, b :: bs => a == b && charsBeginWith as bs

/-- Python `needle in hay` on character lists. -/
def charsContains (needle : List Char) : List Char → Bool
  | [] => charsBeginWith [] needle
  | c :: cs => charsBeginWith (c :: cs) needle || charsContains needle cs

/-- Python `needle in hay` on strings. -/
def strContains (hay needle : String) : Bool :=
  charsContains needle.data hay.data

/-- Python str.lower (ASCII). -/
def strLower (s : String) : String :=
  ⟨s.data.map Char.toLower⟩

/-- Python str.strip (ASCII whitespace). -/
def strStrip (s : String) : String :=
  let ws : Char → Bool := fun c => c == ' ' || c == '\n' || c == '\t' || c == '\r'
  ⟨((s.data.dropWhile ws).reverse.dropWhile ws).reverse⟩

/-
  Audit-log rows (classes CallLog and EntryLog in app/database/models.py) and
  the trace of effects a worker invocation performs.  initiated_at has a
  column default and is not set by the workers; the dict keys the workers do
  set are modelled.
-/

/-- A call_logs row as created by LeadRepository.log_call. -/
structure CallLogEntry where
  completedAt : Nat
  status : String
  error : Option String
  notes : Option String
  duration : Option Nat
  recordingUrl : Option String
deriving DecidableEq, Repr

/-- An entry_logs row as created by LeadRepository.log_entry. -/
structure EntryLogEntry where
  completedAt : Nat
  status : String
  error : Option String
  notes : Option String
  duration : Option Nat
deriving DecidableEq, Repr

/-- One observable effect of a worker invocation, in program order: store
writes (status update, call log, entry log) and the in-process bookkeeping
effects of the two agents (the VoiceAgent.active_calls dict and the
DataEntryAgent.active_entries counter). -/
inductive WriteOp
  | upd (leadId : Nat) (st : LeadStatus) (f : UpdateFields)
  | callLog (leadId : Nat) (entry : CallLogEntry)
  | entryLog (leadId : Nat) (entry : EntryLogEntry)
  | addActive (callId : String)
  | delActive (callId : String)
  | slotRelease
deriving DecidableEq, Repr

/-- Statuses a worker may leave a lead in when it returns. -/
def terminalLeadStatus (st : LeadStatus) : Bool :=
  st == .CONFIRMED || st == .NOT_INTERESTED || st == .CALL_FAILED
    || st == .ENTERED || st == .ENTRY_FAILED

/-- Count the terminal status updates in a trace. -/
def countTerminalUpds (tr : List WriteOp) : Nat :=
  (tr.filter (fun w => match w with
    | .upd _ st _ => terminalLeadStatus st
    | _ => false)).length

/-- Count the call-log rows appended by a trace. -/
def countCallLogs (tr : List WriteOp) : Nat :=
  (tr.filter (fun w => match w with | .callLog _ _ => true | _ => false)).length

/-- Count the entry-log rows appended by a trace. -/
def countEntryLogs (tr : List WriteOp) : Nat :=
  (tr.filter (fun w => match w with | .entryLog _ _ => true | _ => false)).length

/-- Count registrations into VoiceAgent.active_calls. -/
def countAddActive (tr : List WriteOp) : Nat :=
  (tr.filter (fun w => match w with | .addActive _ => true | _ => false)).length

/-- Count removals from VoiceAgent.active_calls. -/
def countDelActive (tr : List WriteOp) : Nat :=
  (tr.filter (fun w => match w with | .delActive _ => true | _ => false)).length

/-- Count decrements of DataEntryAgent.active_entries (the finally block). -/
def countSlotReleases (tr : List WriteOp) : Nat :=
  (tr.filter (fun w => match w with | .slotRelease => true | _ => false)).length

/-- Replay the status updates of a trace onto one lead record. -/
def leadAfter (l : Lead) (now : Nat) : List WriteOp → Lead
  | [] => l
  | .upd lid st f :: rest =>
      leadAfter (if l.id == lid then applyUpdate l st f now else l) now rest
  | _ :: rest => leadAfter l now rest

/-- The statuses of the call-log rows appended by a trace, in order. -/
def callLogStatuses (tr : List WriteOp) : List String :=
  tr.filterMap (fun w => match w with | .callLog _ e => some e.status | _ => none)

/-- The statuses of the entry-log rows appended by a trace, in order. -/
def entryLogStatuses (tr : List WriteOp) : List String :=
  tr.filterMap (fun w => match w with | .entryLog _ e => some e.status | _ => none)

/-
  Model of VoiceAgent (app/agents/voice_agent.py).  External interactions are
  an environment: the initiate result, the sequence of poll results, and the
  best-effort recording block.  AssistableAIClient.make_call,
  get_call_status, download_recording and S3Manager.upload_recording each
  catch their own exceptions and return result dicts, so none of them can
  raise into the worker; the one raise point reachable in
  _process_call_results is `lead.phone1` after get_lead_by_id returns None
  (lines 639-644), modelled by `leadLookup = none`.
-/

namespace VoiceAgent

/-- Result dict of AssistableAIClient.make_call: success with a call_id, or
failure with an error string (HTTP failure or caught exception). -/
inductive MakeCallResult
  | ok (callId : String)
  | err (msg : String)
deriving DecidableEq, Repr

/-- One per-topic response object inside details["transcript"]["responses"]. -/
structure TopicResponse where
  confirmed : Bool
  value : Option String
  response : Option String
deriving DecidableEq, Repr

/-- Result dict of one get_call_status poll: failure (success=False), or a
provider status together with the transcript responses and, when both are
present, the parsed start/end times. -/
inductive PollResult
  | fail (msg : String)
  | ok (status : String) (responses : List (String × TopicResponse))
       (startEnd : Option (Nat × Nat))
deriving Repr

/-- External environment of one VoiceAgent.process_lead invocation. -/
structure Env where
  makeCall : MakeCallResult
  poll : Nat → PollResult
  recordingPath : Option String
  leadLookup : Option Lead
  s3Url : Option String

/-- Provider states treated as terminal by _monitor_call (line 542). -/
def terminalStates : List String := ["completed", "failed", "no-answer", "busy", "canceled"]

/-- Whether a poll observed a terminal provider state. -/
def isTerminalPoll : PollResult → Bool
  | .fail _ => false
  | .ok status _ _ => terminalStates.contains status

/-- Topics whose explicit "no" marks the lead as not interested
(_process_call_results, line 626). -/
def interestTopics : List String := ["verify_education", "area_of_interest"]

/-- The interested flag: defaults to True, set to False on the first designated
topic with an explicit "no" response (lines 623-628). -/
def interestedOf (responses : List (String × TopicResponse)) : Bool :=
  !(responses.any (fun p => interestTopics.contains p.fst && p.snd.response == some "no"))

/-- Accumulator of the extraction loop over responses (lines 601-621). -/
structure ConfirmedInfo where
  email : Option String
  addr : Option String
  aoi : Option String
  tcpa : Bool
deriving DecidableEq, Repr

/-- One step of the extraction loop; later sections overwrite earlier ones. -/
def extractStep (acc : ConfirmedInfo) (p : String × TopicResponse) : ConfirmedInfo :=
  if p.fst == "verify_identity" && p.snd.confirmed then { acc with email := p.snd.value }
  else if p.fst == "collect_address" then { acc with addr := p.snd.value }
  else if p.fst == "area_of_interest" then { acc with aoi := p.snd.value }
  else if p.fst == "tcpa_compliance" && p.snd.response == some "yes" then { acc with tcpa := true }
  else acc

/-- The confirmed email / address / area-of-interest / consent extracted from
the transcript responses. -/
def extractConfirmed (responses : List (String × TopicResponse)) : ConfirmedInfo :=
  responses.foldl extractStep ⟨none, none, none, false⟩

/-- Model of json.dumps(responses) used for the notes fields. -/
def jsonNotes (responses : List (String × TopicResponse)) : String :=
  reprStr responses

/-- Best-effort recording block (lines 630-655): download result, then - on
download success - get_lead_by_id; `lead.phone1` raises AttributeError when
that lookup returns None; otherwise the S3 upload result decides whether
call_data gains a recording_url.  Returns the recording_url value. -/
def recordingOutcome (env : Env) : Except String (Option String) :=
  match env.recordingPath with
  | none => .ok none
  | some _ =>
    match env.leadLookup with
    | none => .error "AttributeError: NoneType object has no attribute phone1"
    | some _ => .ok env.s3Url

/-- VoiceAgent._process_call_results (lines 574-733).  On "completed": run the
extraction and interested heuristic, run the best-effort recording block
(which may raise), append the call log (status "completed"), then update the
lead to CONFIRMED or NOT_INTERESTED.  On any other terminal status: update to
CALL_FAILED, then append the call log.  A raised exception carries no writes
of its own (every raise point precedes the first write of the branch). -/
def processCallResults (env : Env) (leadId : Nat) (now : Nat) (status : String)
    (responses : List (String × TopicResponse)) (startEnd : Option (Nat × Nat)) :
    Except String (Bool × List WriteOp) :=
  if status == "completed" then
    let info := extractConfirmed responses
    let interested := interestedOf responses
    match recordingOutcome env with
    | .error e => .error e
    | .ok recUrl =>
      let dur : Option Nat := startEnd.map (fun p => p.snd - p.fst)
      let logRow : CallLogEntry :=
        { completedAt := now, status := "completed", error := none,
          notes := some (jsonNotes responses), duration := dur, recordingUrl := recUrl }
      if interested then
        .ok (true,
          [.callLog leadId logRow,
           .upd leadId .CONFIRMED
             { UF0 with
                confirmedEmail := some info.email
                confirmedAddress := some info.addr
                confirmedAreaOfInterest := some info.aoi
                tcpaAccepted := some info.tcpa
                callCompletedAt := some now
                callDuration := some dur
                callRecordingUrl := some recUrl
                callNotes := some (jsonNotes responses) }])
      else
        .ok (true,
          [.callLog leadId logRow,
           .upd leadId .NOT_INTERESTED
             { UF0 with
                callCompletedAt := some now
                callDuration := some dur
                callRecordingUrl := some recUrl
                callNotes := some (jsonNotes responses) }])
  else
    .ok (false,
      [.upd leadId .CALL_FAILED
         { UF0 with
            callCompletedAt := some now
            lastError := some ("Call failed with status: " ++ status) },
       .callLog leadId
         { completedAt := now, status := status,
           error := some ("Call failed with status: " ++ status),
           notes := none, duration := none, recordingUrl := none }])

/-- The error message written when the monitoring deadline elapses. -/
def timeoutMsg : String :=
  "Call timed out after " ++ toString CALL_TIMEOUT_SECONDS ++ " seconds"

/-- The writes of the timeout path of _monitor_call (lines 549-572): update to
CALL_FAILED with the timeout message, then a call log with status "timeout". -/
def timeoutWrites (leadId : Nat) (now : Nat) : Bool × List WriteOp :=
  (false,
   [.upd leadId .CALL_FAILED
      { UF0 with callCompletedAt := some now, lastError := some timeoutMsg },
    .callLog leadId
      { completedAt := now, status := "timeout", error := some timeoutMsg,
        notes := none, duration := none, recordingUrl := none }])

/-- VoiceAgent._monitor_call (lines 511-572): poll get_call_status while the
wall clock is before start + CALL_TIMEOUT_SECONDS; failed polls and
non-terminal statuses wait 5 seconds and retry; a terminal status hands over
to _process_call_results.  `fuel` is the number of loop iterations left
before the deadline and `i` the poll index. -/
def monitorCall (env : Env) (leadId : Nat) (now : Nat) :
    Nat → Nat → Except String (Bool × List WriteOp)
  | 0, _ => .ok (timeoutWrites leadId now)
  | fuel + 1, i =>
    match env.poll i with
    | .fail _ => monitorCall env leadId now fuel (i + 1)
    | .ok status responses startEnd =>
      if terminalStates.contains status then
        processCallResults env leadId now status responses startEnd
      else
        monitorCall env leadId now fuel (i + 1)

/-- The additional_fields of the claim update (process_lead, lines 419-427). -/
def claimFields (l : Lead) (now : Nat) : UpdateFields :=
  { UF0 with callInitiatedAt := some now, callAttempts := some (l.callAttempts + 1) }

/-- VoiceAgent.process_lead (lines 402-509).  Claim update to CALLING; on
initiate failure, CALL_FAILED update plus a "failed" call log; on initiate
success, register the call id in active_calls, monitor, and remove the
registration - but only on the non-exception path, since the `del` at lines
481-482 sits in the try body; the except handler (lines 486-509) converts a
raised exception into a CALL_FAILED update plus an "error" call log without
removing the registration. -/
def process_lead (env : Env) (l : Lead) (now : Nat) : Bool × List WriteOp :=
  let claim := WriteOp.upd l.id .CALLING (claimFields l now)
  match env.makeCall with
  | .err e =>
    (false,
     [claim,
      .upd l.id .CALL_FAILED
        { UF0 with callCompletedAt := some now, lastError := some e },
      .callLog l.id
        { completedAt := now, status := "failed", error := some e,
          notes := none, duration := none, recordingUrl := none }])
  | .ok callId =>
    match monitorCall env l.id now pollLimit 0 with
    | .ok (b, ws) =>
      (b, claim :: .addActive callId :: (ws ++ [.delActive callId]))
    | .error e =>
      (false,
       claim :: .addActive callId ::
         [.upd l.id .CALL_FAILED
            { UF0 with callCompletedAt := some now, lastError := some e },
          .callLog l.id
            { completedAt := now, status := "error", error := some e,
              notes := none, duration := none, recordingUrl := none }])

/-- The task-launch loop of VoiceAgent.run (lines 376-390): iterate over the
fetched leads and break when len(active_calls) >= MAX_CONCURRENT_CALLS.
asyncio.create_task does not run the task, and the loop body contains no
await, so active_calls keeps the size it had when the loop started. -/
def launchList {α : Type} (activeSize M : Nat) : List α → List α
  | [] => []
  | l :: ls => if activeSize ≥ M then [] else l :: launchList activeSize M ls

/-- One scheduler cycle of VoiceAgent.run after the fetch: the launched tasks
are gathered, and every task is process_lead, which catches all exceptions,
so the results are the independent per-lead results. -/
def runCycle (envOf : Nat → Env) (activeSize : Nat) (leads : List Lead)
    (now : Nat) : List (Bool × List WriteOp) :=
  (launchList activeSize MAX_CONCURRENT_CALLS leads).map
    (fun l => process_lead (envOf l.id) l now)

end VoiceAgent

/-
  Model of DataEntryAgent and LeadHoopClient (app/agents/data_entry_agent.py).
  login and submit_lead catch their own exceptions, so into process_lead they
  only return values; the raise points reaching the except handler of
  process_lead are the client startup (__aenter__/new_page, before any body
  write) and the client teardown (__aexit__, which runs when the async-with
  body exits, including on return, after the body writes).
-/

namespace DataEntryAgent

/-- State of the portal page after the form submission: final URL, page
content, and the elements present (CSS selector paired with its text
content) as seen by query_selector. -/
structure PageData where
  url : String
  content : String
  selectorText : List (String × String)
deriving DecidableEq, Repr

/-- Playwright query_selector: the text content of the first matching element,
when one is present. -/
def findSel (p : PageData) (sel : String) : Option String :=
  (p.selectorText.find? (fun q => q.fst == sel)).map (fun q => q.snd)

/-- success_indicators (lines 284-290). -/
def success_indicators : List String :=
  ["thank you", "success", "submitted", "received", "confirmation"]

/-- success_selectors (lines 305-311). -/
def success_selectors : List String :=
  [".success-message", ".alert-success", ".confirmation",
   "h1:has-text(\x27Thank You\x27)", ".success"]

/-- error_indicators (lines 318-324). -/
def error_indicators : List String :=
  ["error", "failed", "invalid", "problem", "incorrect"]

/-- error_selectors of _extract_error_message (lines 354-360). -/
def error_selectors : List String :=
  [".error-message", ".alert-danger", ".form-error",
   ".validation-summary-errors", ".error"]

/-- LeadHoopClient._verify_submission_success (lines 269-336): success keyword
in the lowercased URL, else success keyword in the lowercased page content,
else a success marker element present, else False when an error keyword
occurs in the content, else True (default success). -/
def verify_submission_success (p : PageData) : Bool :=
  let url := strLower p.url
  let content := strLower p.content
  if success_indicators.any (fun ind => strContains url ind) then true
  else if success_indicators.any (fun ind => strContains content ind) then true
  else if success_selectors.any (fun sel => (findSel p sel).isSome) then true
  else if error_indicators.any (fun ind => strContains content ind) then false
  else true

/-- LeadHoopClient._extract_error_message (lines 338-374): the stripped text of
the first error-marker element with non-empty text, else a generic message. -/
def extract_error_message (p : PageData) : String :=
  ((error_selectors.filterMap (fun sel =>
      (findSel p sel).bind (fun txt =>
        let m := strStrip txt
        if m.data.isEmpty then none else some m))).head?).getD
    "Form submission failed without a specific error message"

/-- External environment of one DataEntryAgent.process_lead invocation. -/
structure Env where
  initOk : Bool
  loginOk : Bool
  submitExc : Option String
  errShot : Option String
  page : PageData
  shot : String
  submitDur : Nat
  closeOk : Bool
deriving DecidableEq, Repr

/-- Result dict of LeadHoopClient.submit_lead (lines 122-197). -/
structure SubmitResult where
  success : Bool
  screenshot : Option String
  message : Option String
  error : Option String
deriving DecidableEq, Repr

/-- LeadHoopClient.submit_lead: navigate, fill, screenshot, submit, classify.
An exception inside the body is caught there (lines 181-197) and returned as
a failure dict with a best-effort error screenshot; otherwise the screenshot
taken before submission is part of the result and the classifier decides
success. -/
def submit_lead (env : Env) : SubmitResult :=
  match env.submitExc with
  | some e =>
    { success := false, screenshot := env.errShot, message := none, error := some e }
  | none =>
    if verify_submission_success env.page then
      { success := true, screenshot := some env.shot,
        message := some "Lead submitted successfully", error := none }
    else
      { success := false, screenshot := some env.shot, message := none,
        error := some (extract_error_message env.page) }

/-- The additional_fields of the claim update (process_lead, lines 473-481). -/
def claimFields (l : Lead) (now : Nat) : UpdateFields :=
  { UF0 with entryInitiatedAt := some now, entryAttempts := some (l.entryAttempts + 1) }

/-- The error written on login failure (lines 489-512). -/
def loginFailMsg : String := "Failed to log in to LeadHoop portal"

/-- Message standing for str(e) of a client startup exception. -/
def startupExcMsg : String := "Browser startup failed"

/-- Message standing for str(e) of a client teardown exception. -/
def teardownExcMsg : String := "Browser teardown failed"

/-- The writes of the except handler of process_lead (lines 573-594):
ENTRY_FAILED update with str(e), then an "error" entry log. -/
def handlerWrites (leadId : Nat) (now : Nat) (e : String) : List WriteOp :=
  [.upd leadId .ENTRY_FAILED
     { UF0 with entryCompletedAt := some now, lastError := some e },
   .entryLog leadId
     { completedAt := now, status := "error", error := some e,
       notes := none, duration := none }]

/-- Body of the async-with block (lines 484-571): login failure writes an
ENTRY_FAILED update and a "login_failed" log; otherwise submit_lead is run
and its result decides between the ENTERED/"completed" pair and the
ENTRY_FAILED/"failed" pair. -/
def entryBody (env : Env) (l : Lead) (now : Nat) : Bool × List WriteOp :=
  if !env.loginOk then
    (false,
     [.upd l.id .ENTRY_FAILED
        { UF0 with entryCompletedAt := some now, lastError := some loginFailMsg },
      .entryLog l.id
        { completedAt := now, status := "login_failed", error := some loginFailMsg,
          notes := none, duration := none }])
  else
    let r := submit_lead env
    if r.success then
      (true,
       [.upd l.id .ENTERED
          { UF0 with
             entryCompletedAt := some now
             entryDuration := some env.submitDur
             entryNotes := some (r.message.getD "Lead submitted successfully") },
        .entryLog l.id
          { completedAt := now, status := "completed", error := none,
            notes := some (r.message.getD "Lead submitted successfully"),
            duration := some env.submitDur }])
    else
      (false,
       [.upd l.id .ENTRY_FAILED
          { UF0 with
             entryCompletedAt := some now
             entryDuration := some env.submitDur
             lastError := some (r.error.getD "Unknown error during submission") },
        .entryLog l.id
          { completedAt := now, status := "failed",
            error := some (r.error.getD "Unknown error during submission"),
            notes := none, duration := some env.submitDur }])

/-- DataEntryAgent.process_lead (lines 456-599).  Claim update to
ENTRY_IN_PROGRESS; a startup exception goes straight to the except handler;
otherwise the body runs and then the client teardown: when teardown raises,
the exception reaches the except handler, which writes a second ENTRY_FAILED
update and a second log after the ones the body already wrote.  The finally
block (lines 597-599) releases the active_entries slot on every path. -/
def process_lead (env : Env) (l : Lead) (now : Nat) : Bool × List WriteOp :=
  let claim := WriteOp.upd l.id .ENTRY_IN_PROGRESS (claimFields l now)
  let r :=
    if !env.initOk then
      (false, claim :: handlerWrites l.id now startupExcMsg)
    else
      let br := entryBody env l now
      if env.closeOk then
        (br.1, claim :: br.2)
      else
        (false, (claim :: br.2) ++ handlerWrites l.id now teardownExcMsg)
  (r.1, r.2 ++ [.slotRelease])

/-- The task-launch loop of DataEntryAgent.run (lines 428-444): iterate over
the fetched leads, break when active_entries >= MAX_CONCURRENT_DATA_ENTRIES,
and increment active_entries for each task created. -/
def launchList {α : Type} (active M : Nat) : List α → List α
  | [] => []
  | l :: ls => if active ≥ M then [] else l :: launchList (active + 1) M ls

end DataEntryAgent

/-
  Observers and concrete fixtures used by the theorems below.
-/

/-- The status of the last lead update performed by a successful worker
result; none for a raised exception. -/
def resultStatus? : Except String (Bool × List WriteOp) → Option LeadStatus
  | .error _ => none
  | .ok (_, ws) =>
    (ws.filterMap (fun w => match w with | .upd _ st _ => some st | _ => none)).getLast?

/-- A lead record with the given workflow fields and empty call/entry data. -/
def mkLead (id : Nat) (st : LeadStatus) (created statusUpd : Nat)
    (cInit : Option Nat) (cAtt eAtt : Nat) : Lead :=
  { id := id, status := st, statusUpdatedAt := statusUpd, createdAt := created,
    callInitiatedAt := cInit, callCompletedAt := none, callDuration := none,
    callRecordingUrl := none, callNotes := none, callAttempts := cAtt,
    entryInitiatedAt := none, entryCompletedAt := none, entryDuration := none,
    entryNotes := none, entryAttempts := eAtt,
    confirmedEmail := none, confirmedAddress := none,
    confirmedAreaOfInterest := none, tcpaAccepted := none, lastError := none }

/-- A fresh PENDING lead (Scenario A pre-state). -/
def leadP1 : Lead := mkLead 1 .PENDING 100 100 none 0 0

/-- A second fresh PENDING lead. -/
def leadP2 : Lead := mkLead 2 .PENDING 200 200 none 0 0

/-- A CONFIRMED lead with entry_attempts = 2 (Scenario B pre-state). -/
def leadB : Lead := mkLead 7 .CONFIRMED 100 150 none 1 2

/-- A batch of six PENDING leads, one more than MAX_CONCURRENT_CALLS. -/
def sixLeads : List Lead :=
  [mkLead 1 .PENDING 10 10 none 0 0, mkLead 2 .PENDING 20 20 none 0 0,
   mkLead 3 .PENDING 30 30 none 0 0, mkLead 4 .PENDING 40 40 none 0 0,
   mkLead 5 .PENDING 50 50 none 0 0, mkLead 6 .PENDING 60 60 none 0 0]

/-- A PENDING lead whose call was initiated 10 seconds before time 100000. -/
def freshCallLead : Lead := mkLead 11 .PENDING 100 100 (some 99990) 1 0

/-- A CONFIRMED lead whose entry was initiated 10 seconds before time 100000. -/
def freshEntryLead : Lead :=
  { mkLead 12 .CONFIRMED 100 150 none 1 1 with entryInitiatedAt := some 99990 }

/-- Voice environment whose provider never reports a terminal state. -/
def neverTerminalEnv : VoiceAgent.Env :=
  { makeCall := .ok "call-t", poll := fun _ => .ok "in-progress" [] none,
    recordingPath := none, leadLookup := none, s3Url := none }

/-- Voice environment whose initiate request fails. -/
def initFailEnv : VoiceAgent.Env :=
  { makeCall := .err "provider rejected the request",
    poll := fun _ => .fail "unused",
    recordingPath := none, leadLookup := none, s3Url := none }

/-- Scenario A transcript: an explicit "no" on the education-interest topic. -/
def scenarioAResponses : List (String × VoiceAgent.TopicResponse) :=
  [("verify_education", { confirmed := false, value := none, response := some "no" })]

/-- Scenario A voice environment: first poll already reports "completed" with
the Scenario A transcript; no recording is available. -/
def scenarioAEnv : VoiceAgent.Env :=
  { makeCall := .ok "call-a",
    poll := fun _ => .ok "completed" scenarioAResponses none,
    recordingPath := none, leadLookup := none, s3Url := none }

/-- Voice environment in which the call completes, a recording was downloaded,
but the lead row has vanished when the recording block reloads it - the one
raise point of _process_call_results. -/
def leakEnv : VoiceAgent.Env :=
  { makeCall := .ok "call-x",
    poll := fun _ => .ok "completed" [] none,
    recordingPath := some "/tmp/call-x.mp3", leadLookup := none, s3Url := none }

/-- Scenario B page: the destination URL contains hyphenated "thank-you" and
the content holds no success and no error keyword. -/
def scenBPage : DataEntryAgent.PageData :=
  { url := "https://portal.example.com/thank-you",
    content := "your request has been recorded",
    selectorText := [] }

/-- Page refuting the URL-keyword reading of Scenario B: same hyphenated
"thank-you" URL, but the content carries an error keyword. -/
def c8Page : DataEntryAgent.PageData :=
  { url := "https://portal.example.com/thank-you",
    content := "error: request could not be processed",
    selectorText := [] }

/-- Scenario B entry environment: startup, login and teardown succeed, no
submission exception, and the page after submission is scenBPage. -/
def scenarioBEnv : DataEntryAgent.Env :=
  { initOk := true, loginOk := true, submitExc := none, errShot := none,
    page := scenBPage, shot := "logs/screenshots/lead_7_20250101000000.png",
    submitDur := 4, closeOk := true }

/-- Entry environment identical to Scenario B except the page carries an
error keyword. -/
def c8FailEnv : DataEntryAgent.Env :=
  { scenarioBEnv with page := c8Page }

/-- Entry environment whose browser teardown raises after a successful
submission was already written. -/
def teardownEnv : DataEntryAgent.Env :=
  { initOk := true, loginOk := true, submitExc := none, errShot := none,
    page := { url := "https://portal.example.com/success", content := "",
              selectorText := [] },
    shot := "logs/screenshots/lead_7_20250101000001.png",
    submitDur := 3, closeOk := false }

/-- Write-pair bookkeeping of a call-worker result: a successful result
carries exactly one terminal status update and one call log and no other
effects; a raised exception carries no writes. -/
def goodCounts (r : Except String (Bool × List WriteOp)) : Prop :=
  match r with
  | .error _ => True
  | .ok (_, ws) =>
      countTerminalUpds ws = 1 ∧ countCallLogs ws = 1 ∧ countEntryLogs ws = 0
      ∧ countAddActive ws = 0 ∧ countDelActive ws = 0

/-- Layer 1 of the submission classifier: a success keyword in the lowercased
destination URL. -/
def urlMatch (p : DataEntryAgent.PageData) : Bool :=
  DataEntryAgent.success_indicators.any (fun ind => strContains (strLower p.url) ind)

/-- Layer 2: a success keyword in the lowercased page content. -/
def contentMatch (p : DataEntryAgent.PageData) : Bool :=
  DataEntryAgent.success_indicators.any (fun ind => strContains (strLower p.content) ind)

/-- Layer 3: a known success marker element present on the page. -/
def markerMatch (p : DataEntryAgent.PageData) : Bool :=
  DataEntryAgent.success_selectors.any (fun sel => (DataEntryAgent.findSel p sel).isSome)

/-- Layer 4 trigger: a known error keyword in the lowercased page content. -/
def errorMatch (p : DataEntryAgent.PageData) : Bool :=
  DataEntryAgent.error_indicators.any (fun ind => strContains (strLower p.content) ind)

/-- Modelled from the spec wording of the layered heuristic, evaluated in
order until one layer decides: URL keyword, then content keyword, then
success marker element, then absence of any known error keyword as the
default-success fallback. -/
def layeredClassifierSpec (p : DataEntryAgent.PageData) : Bool :=
  if urlMatch p then true
  else if contentMatch p then true
  else if markerMatch p then true
  else if errorMatch p then false
  else true

/-
  Helper lemmas about the repository operations.
-/

/-- Membership in the calling selection implies membership in the store and
the WHERE clause. -/
theorem mem_get_pending {db : List Lead} {now limit : Nat} {l : Lead}
    (h : l ∈ LeadRepository.get_pending_leads_for_calling db now limit) :
    l ∈ db ∧ LeadRepository.callEligible now l = true := by
  unfold LeadRepository.get_pending_leads_for_calling at h
  have h1 := List.mem_of_mem_take h
  rw [List.mem_insertionSort] at h1
  exact ⟨(List.mem_filter.mp h1).1, (List.mem_filter.mp h1).2⟩

/-- Membership in the entry selection implies membership in the store and the
WHERE clause. -/
theorem mem_get_confirmed {db : List Lead} {limit : Nat} {l : Lead}
    (h : l ∈ LeadRepository.get_confirmed_leads_for_entry db limit) :
    l ∈ db ∧ LeadRepository.entryEligible l = true := by
  unfold LeadRepository.get_confirmed_leads_for_entry at h
  have h1 := List.mem_of_mem_take h
  rw [List.mem_insertionSort] at h1
  exact ⟨(List.mem_filter.mp h1).1, (List.mem_filter.mp h1).2⟩

/-- The calling selection is ordered by created_at. -/
theorem pending_sel_sorted (db : List Lead) (now limit : Nat) :
    List.Pairwise LeadRepository.createdLe
      (LeadRepository.get_pending_leads_for_calling db now limit) :=
  List.Pairwise.sublist (List.take_sublist limit _)
    (List.sorted_insertionSort LeadRepository.createdLe _)

/-- The entry selection is ordered by status_updated_at. -/
theorem confirmed_sel_sorted (db : List Lead) (limit : Nat) :
    List.Pairwise LeadRepository.statusUpdatedLe
      (LeadRepository.get_confirmed_leads_for_entry db limit) :=
  List.Pairwise.sublist (List.take_sublist limit _)
    (List.sorted_insertionSort LeadRepository.statusUpdatedLe _)

/-- update_lead_status does not change the sequence of lead ids. -/
theorem update_preserves_ids (db : List Lead) (id0 : Nat) (st : LeadStatus)
    (f : UpdateFields) (now : Nat) :
    (LeadRepository.update_lead_status db id0 st f now).1.map (fun l => l.id)
      = db.map (fun l => l.id) := by
  induction db with
  | nil => rfl
  | cons l rest ih =>
    by_cases h : l.id == id0
    · simp [LeadRepository.update_lead_status, h, applyUpdate]
    · simp [LeadRepository.update_lead_status, h, ih]

/-- update_lead_status reports success exactly when a lead with the id exists;
the current status of that lead is not consulted. -/
theorem update_succeeds_iff (db : List Lead) (id0 : Nat) (st : LeadStatus)
    (f : UpdateFields) (now : Nat) :
    (LeadRepository.update_lead_status db id0 st f now).2 = true
      ↔ ∃ l ∈ db, l.id = id0 := by
  induction db with
  | nil => simp [LeadRepository.update_lead_status]
  | cons l rest ih =>
    by_cases h : l.id = id0
    · simp [LeadRepository.update_lead_status, h]
    · simp only [LeadRepository.update_lead_status, beq_iff_eq, h, if_false]
      rw [ih]
      constructor
      · rintro ⟨x, hx, hid⟩; exact ⟨x, List.mem_cons_of_mem l hx, hid⟩
      · rintro ⟨x, hx, hid⟩
        rcases List.mem_cons.mp hx with rfl | hx2
        · exact absurd hid h
        · exact ⟨x, hx2, hid⟩

/-- Under primary-key uniqueness, every lead in the store that carries the
updated id has the new status after update_lead_status. -/
theorem update_sets_status (db : List Lead) (id0 : Nat) (st : LeadStatus)
    (f : UpdateFields) (now : Nat)
    (hnd : (db.map (fun l => l.id)).Nodup) :
    ∀ l ∈ (LeadRepository.update_lead_status db id0 st f now).1,
      l.id = id0 → l.status = st := by
  induction db with
  | nil => intro l hl; cases hl
  | cons x rest ih =>
    have hnd' := hnd
    rw [List.map_cons, List.nodup_cons] at hnd'
    by_cases h : x.id == id0
    · intro l hl hid
      simp only [LeadRepository.update_lead_status, h, if_true] at hl
      rcases List.mem_cons.mp hl with rfl | hl2
      · simp [applyUpdate]
      · exfalso
        have hx : x.id = id0 := by simpa using h
        exact hnd'.1 (by rw [hx, ← hid]; exact List.mem_map_of_mem (fun l => l.id) hl2)
    · intro l hl hid
      simp only [LeadRepository.update_lead_status, h, if_false] at hl
      rcases List.mem_cons.mp hl with rfl | hl2
      · exact absurd (by simpa using hid) (by simpa using h)
      · exact ih hnd'.2 l hl2 hid

/-- C6: for every store state and limit, each stage's selection query returns
at most `limit` leads, each in that stage's eligible status (PENDING for
calling, CONFIRMED for entry) with the stage's attempt counter strictly below
the configured maximum of 3, ordered oldest-first by the relevant timestamp
(created_at for calling, status_updated_at for entry). -/
theorem C6_selection_sound (db : List Lead) (now limit : Nat) :
    (LeadRepository.get_pending_leads_for_calling db now limit).length ≤ limit
    ∧ (∀ l ∈ LeadRepository.get_pending_leads_for_calling db now limit,
         l.status = .PENDING ∧ l.callAttempts < 3)
    ∧ List.Pairwise LeadRepository.createdLe
        (LeadRepository.get_pending_leads_for_calling db now limit)
    ∧ (LeadRepository.get_confirmed_leads_for_entry db limit).length ≤ limit
    ∧ (∀ l ∈ LeadRepository.get_confirmed_leads_for_entry db limit,
         l.status = .CONFIRMED ∧ l.entryAttempts < 3)
    ∧ List.Pairwise LeadRepository.statusUpdatedLe
        (LeadRepository.get_confirmed_leads_for_entry db limit) := by
  refine ⟨?_, ?_, pending_sel_sorted db now limit, ?_, ?_, confirmed_sel_sorted db limit⟩
  · exact List.length_take_le limit _
  · intro l hl
    have h2 := (mem_get_pending hl).2
    simp only [LeadRepository.callEligible, Bool.and_eq_true, beq_iff_eq,
      decide_eq_true_eq] at h2
    exact ⟨h2.1.1, h2.2⟩
  · exact List.length_take_le limit _
  · intro l hl
    have h2 := (mem_get_confirmed hl).2
    simp only [LeadRepository.entryEligible, Bool.and_eq_true, beq_iff_eq,
      decide_eq_true_eq] at h2
    exact h2

/-- Witness for C6 at a concrete store: leadP1 is returned by the calling
selection of the one-lead store, so the theorem yields its eligibility. -/
theorem C6_selection_sound_witness :
    leadP1.status = LeadStatus.PENDING ∧ leadP1.callAttempts < 3 :=
  (C6_selection_sound [leadP1] 0 5).2.1 leadP1 (by decide)

/-- C9: running the calling selection immediately after a claim of a lead
(which moved it to CALLING) never returns that lead, and more generally a
lead whose status has left PENDING is never returned until it changes back. -/
theorem C9_claimed_not_reoffered :
    (∀ (db : List Lead) (id0 : Nat) (f : UpdateFields) (now now2 limit : Nat),
       (db.map (fun l => l.id)).Nodup →
       ∀ l ∈ LeadRepository.get_pending_leads_for_calling
           (LeadRepository.update_lead_status db id0 .CALLING f now).1 now2 limit,
         l.id ≠ id0)
    ∧ (∀ (db : List Lead) (now limit : Nat) (l : Lead),
         l.status ≠ .PENDING →
         l ∉ LeadRepository.get_pending_leads_for_calling db now limit) := by
  constructor
  · intro db id0 f now now2 limit hnd l hl hid
    have hmem := mem_get_pending hl
    have hst : l.status = .CALLING :=
      update_sets_status db id0 .CALLING f now hnd l hmem.1 hid
    have h2 := hmem.2
    simp only [LeadRepository.callEligible, Bool.and_eq_true, beq_iff_eq] at h2
    rw [hst] at h2
    exact absurd h2.1.1 (by intro hc; cases hc)
  · intro db now limit l hst hl
    have h2 := (mem_get_pending hl).2
    simp only [LeadRepository.callEligible, Bool.and_eq_true, beq_iff_eq] at h2
    exact hst h2.1.1

/-- Witness for C9: in a two-lead store, after claiming lead 1 the selection
still returns leadP2, and the theorem yields that its id differs from 1. -/
theorem C9_claimed_not_reoffered_witness : leadP2.id ≠ 1 :=
  C9_claimed_not_reoffered.1 [leadP1, leadP2] 1 (VoiceAgent.claimFields leadP1 10)
    10 20 5 (by decide) leadP2 (by decide)

/-- C10: the calling selection enforces a one-hour per-lead cool-down - a lead
whose call_initiated_at is non-null and not older than an hour is never
returned, even when PENDING with fewer than 3 attempts - while entry
eligibility depends only on status and entry_attempts, with no timestamp
condition; concretely, a lead whose call was initiated 10 seconds ago is
excluded from the calling selection, while a CONFIRMED lead whose entry was
initiated 10 seconds ago is still returned by the entry selection. -/
theorem C10_one_hour_cooldown :
    (∀ (db : List Lead) (now limit : Nat) (l : Lead) (t : Nat),
       l.callInitiatedAt = some t → ¬ t < now - LeadRepository.oneHour →
       l ∉ LeadRepository.get_pending_leads_for_calling db now limit)
    ∧ (∀ l l' : Lead, l.status = l'.status → l.entryAttempts = l'.entryAttempts →
         LeadRepository.entryEligible l = LeadRepository.entryEligible l')
    ∧ LeadRepository.get_pending_leads_for_calling [freshCallLead] 100000 10 = []
    ∧ LeadRepository.get_confirmed_leads_for_entry [freshEntryLead] 10
        = [freshEntryLead] := by
  refine ⟨?_, ?_, by decide, by decide⟩
  · intro db now limit l t hsome hrecent hl
    have h2 := (mem_get_pending hl).2
    simp only [LeadRepository.callEligible, hsome, Bool.and_eq_true,
      decide_eq_true_eq] at h2
    exact hrecent h2.1.2
  · intro l l' hs ha
    simp [LeadRepository.entryEligible, hs, ha]

/-- Witness for C10: the theorem applied to the recently-called lead. -/
theorem C10_one_hour_cooldown_witness :
    freshCallLead ∉ LeadRepository.get_pending_leads_for_calling [freshCallLead] 100000 10 :=
  C10_one_hour_cooldown.1 [freshCallLead] 100000 10 freshCallLead 99990
    (by decide) (by decide)

/-- C1 counterexample: update_lead_status has no expected-pre-state condition.
After a first claim moved leadP1 from PENDING to CALLING, a second claim of
the same lead still reports success, so two concurrent workers can both
succeed in claiming one lead - the claim as stated is false on this code. -/
theorem C1_counterexample :
    (LeadRepository.update_lead_status [leadP1] 1 .CALLING
        (VoiceAgent.claimFields leadP1 10) 10).2 = true
    ∧ ((LeadRepository.update_lead_status [leadP1] 1 .CALLING
          (VoiceAgent.claimFields leadP1 10) 10).1.head?.map (fun l => l.status))
        = some .CALLING
    ∧ (LeadRepository.update_lead_status
         (LeadRepository.update_lead_status [leadP1] 1 .CALLING
            (VoiceAgent.claimFields leadP1 10) 10).1
         1 .CALLING (VoiceAgent.claimFields leadP1 20) 20).2 = true := by
  exact ⟨by decide, by decide, by decide⟩

/-- C1 amended: the claim update stamps the stage's *_initiated_at timestamp
and increments the stage's attempt counter in one update, but it is an
unconditional read-then-write - update_lead_status succeeds exactly when a
lead with the id exists, whatever its current status, so it provides no
mutual exclusion and a second claim after a successful claim always succeeds
as well. -/
theorem C1_claim_unconditional :
    (∀ (db : List Lead) (id0 : Nat) (st : LeadStatus) (f : UpdateFields) (now : Nat),
       ((LeadRepository.update_lead_status db id0 st f now).2 = true
          ↔ ∃ l ∈ db, l.id = id0))
    ∧ (∀ (db : List Lead) (id0 : Nat) (st st' : LeadStatus) (f f' : UpdateFields)
         (now now' : Nat),
         (LeadRepository.update_lead_status db id0 st f now).2 = true →
         (LeadRepository.update_lead_status
            (LeadRepository.update_lead_status db id0 st f now).1
            id0 st' f' now').2 = true)
    ∧ (∀ (l : Lead) (now : Nat),
         (applyUpdate l .CALLING (VoiceAgent.claimFields l now) now).status = .CALLING
         ∧ (applyUpdate l .CALLING (VoiceAgent.claimFields l now) now).callInitiatedAt
             = some now
         ∧ (applyUpdate l .CALLING (VoiceAgent.claimFields l now) now).callAttempts
             = l.callAttempts + 1)
    ∧ (∀ (l : Lead) (now : Nat),
         (applyUpdate l .ENTRY_IN_PROGRESS (DataEntryAgent.claimFields l now) now).status
             = .ENTRY_IN_PROGRESS
         ∧ (applyUpdate l .ENTRY_IN_PROGRESS (DataEntryAgent.claimFields l now) now).entryInitiatedAt
             = some now
         ∧ (applyUpdate l .ENTRY_IN_PROGRESS (DataEntryAgent.claimFields l now) now).entryAttempts
             = l.entryAttempts + 1) := by
  refine ⟨fun db id0 st f now => update_succeeds_iff db id0 st f now, ?_, ?_, ?_⟩
  · intro db id0 st st' f f' now now' h
    rw [update_succeeds_iff] at h ⊢
    rcases h with ⟨x, hx, hid⟩
    have hmap : id0 ∈ (LeadRepository.update_lead_status db id0 st f now).1.map
        (fun l => l.id) := by
      rw [update_preserves_ids]
      exact hid ▸ List.mem_map_of_mem (fun l => l.id) hx
    rcases List.mem_map.mp hmap with ⟨y, hy, hyid⟩
    exact ⟨y, hy, hyid⟩
  · intro l now
    refine ⟨?_, ?_, ?_⟩ <;> simp [applyUpdate, VoiceAgent.claimFields, UF0]
  · intro l now
    refine ⟨?_, ?_, ?_⟩ <;> simp [applyUpdate, DataEntryAgent.claimFields, UF0]

/-- Witness for C1 amended: the double-claim conjunct applied to leadP1. -/
theorem C1_claim_unconditional_witness :
    (LeadRepository.update_lead_status
       (LeadRepository.update_lead_status [leadP1] 1 .CALLING
          (VoiceAgent.claimFields leadP1 10) 10).1
       1 .CALLING (VoiceAgent.claimFields leadP1 20) 20).2 = true :=
  C1_claim_unconditional.2.1 [leadP1] 1 .CALLING .CALLING
    (VoiceAgent.claimFields leadP1 10) (VoiceAgent.claimFields leadP1 20)
    10 20 (by decide)

/-
  Helper lemmas about the two task-launch loops and the entry slot counter.
-/

/-- The voice launch loop never consults a per-task count: when the registry
size it reads is below the cap, it launches every fetched lead. -/
theorem voiceLaunch_all {α : Type} (a M : Nat) (h : a < M) :
    ∀ ls : List α, VoiceAgent.launchList a M ls = ls := by
  intro ls
  induction ls with
  | nil => rfl
  | cons x xs ih =>
    have h2 : ¬ a ≥ M := Nat.not_le.mpr h
    simp [VoiceAgent.launchList, h2, ih]

/-- The entry launch loop takes exactly the first M - active leads. -/
theorem entryLaunch_eq_take {α : Type} (M : Nat) :
    ∀ (ls : List α) (a : Nat),
      DataEntryAgent.launchList a M ls = ls.take (M - a) := by
  intro ls
  induction ls with
  | nil => intro a; simp [DataEntryAgent.launchList]
  | cons x xs ih =>
    intro a
    by_cases h : a ≥ M
    · have h0 : M - a = 0 := Nat.sub_eq_zero_of_le h
      simp [DataEntryAgent.launchList, h, h0]
    · have h2 : M - a = (M - (a + 1)) + 1 := by omega
      simp [DataEntryAgent.launchList, h, h2, ih]

/-- The body of the entry worker performs no slot release of its own. -/
theorem entryBody_no_slotRelease (env : DataEntryAgent.Env) (l : Lead) (now : Nat) :
    countSlotReleases (DataEntryAgent.entryBody env l now).2 = 0 := by
  by_cases hl : env.loginOk
  · by_cases hs : (DataEntryAgent.submit_lead env).success
    · simp [DataEntryAgent.entryBody, hl, hs, countSlotReleases]
    · simp [DataEntryAgent.entryBody, hl, hs, countSlotReleases]
  · simp [DataEntryAgent.entryBody, hl, countSlotReleases]

/-- C3 counterexample: with an empty active-call registry, a cycle of the call
scheduler launches all six fetched leads although MAX_CONCURRENT_CALLS is 5
(the registry a task fills is still empty while tasks are being created), and
on the exception path of the call worker the registry entry registered at
initiate time is never removed - both halves of the claim fail for the call
stage. -/
theorem C3_counterexample :
    (VoiceAgent.launchList 0 MAX_CONCURRENT_CALLS sixLeads).length = 6
    ∧ MAX_CONCURRENT_CALLS = 5
    ∧ countAddActive (VoiceAgent.process_lead leakEnv leadP1 0).2 = 1
    ∧ countDelActive (VoiceAgent.process_lead leakEnv leadP1 0).2 = 0 :=
  ⟨by decide, by decide, by decide, by decide⟩

/-- C3 amended: for the entry stage the cap holds - a cycle launches exactly
the first MAX_CONCURRENT_DATA_ENTRIES - active leads (at most the cap), leads
beyond the cap are left for a later cycle, and the worker releases its
active_entries slot exactly once on every exit path via its finally block.
For the call stage the check reads the active-call registry that a worker
only fills after initiating its call, so a cycle whose registry reads below
the cap launches every fetched lead, beyond MAX_CONCURRENT_CALLS; the
registry entry is removed only on the worker's non-exception path. -/
theorem C3_concurrency_amended :
    (∀ (ls : List Lead) (a : Nat),
       DataEntryAgent.launchList a MAX_CONCURRENT_DATA_ENTRIES ls
         = ls.take (MAX_CONCURRENT_DATA_ENTRIES - a))
    ∧ (∀ ls : List Lead,
       (DataEntryAgent.launchList 0 MAX_CONCURRENT_DATA_ENTRIES ls).length
         ≤ MAX_CONCURRENT_DATA_ENTRIES)
    ∧ (∀ (env : DataEntryAgent.Env) (l : Lead) (now : Nat),
         countSlotReleases (DataEntryAgent.process_lead env l now).2 = 1)
    ∧ (∀ ls : List Lead, VoiceAgent.launchList 0 MAX_CONCURRENT_CALLS ls = ls) := by
  refine ⟨fun ls a => entryLaunch_eq_take _ ls a, ?_, ?_, ?_⟩
  · intro ls
    rw [entryLaunch_eq_take]
    exact Nat.le_trans (List.length_take_le _ ls) (Nat.sub_le _ 0)
  · intro env l now
    have hb := entryBody_no_slotRelease env l now
    by_cases hi : env.initOk
    · by_cases hc : env.closeOk
      · simp [DataEntryAgent.process_lead, hi, hc, countSlotReleases,
          List.filter_append, DataEntryAgent.claimFields] at hb ⊢
        simpa [countSlotReleases] using hb
      · simp [DataEntryAgent.process_lead, hi, hc, countSlotReleases,
          List.filter_append, DataEntryAgent.handlerWrites] at hb ⊢
        simpa [countSlotReleases] using hb
    · simp [DataEntryAgent.process_lead, hi, countSlotReleases,
        List.filter_append, DataEntryAgent.handlerWrites]
  · exact fun ls => voiceLaunch_all 0 MAX_CONCURRENT_CALLS (by decide) ls

/-- When no poll before the deadline observes a terminal provider state, the
monitoring loop runs out of fuel and produces exactly the timeout writes. -/
theorem monitor_times_out (env : VoiceAgent.Env) (lid now : Nat) :
    ∀ (fuel i : Nat),
      (∀ j, i ≤ j → j < i + fuel → VoiceAgent.isTerminalPoll (env.poll j) = false) →
      VoiceAgent.monitorCall env lid now fuel i
        = .ok (VoiceAgent.timeoutWrites lid now) := by
  intro fuel
  induction fuel with
  | zero => intro i _; rfl
  | succ n ih =>
    intro i h
    have h0 : VoiceAgent.isTerminalPoll (env.poll i) = false :=
      h i (Nat.le_refl i) (by omega)
    cases hp : env.poll i with
    | fail m =>
      simp only [VoiceAgent.monitorCall, hp]
      exact ih (i + 1) (fun j hj1 hj2 => h j (by omega) (by omega))
    | ok st rs se =>
      have hterm : VoiceAgent.terminalStates.contains st = false := by
        rw [hp] at h0
        simpa [VoiceAgent.isTerminalPoll] using h0
      simp only [VoiceAgent.monitorCall, hp, hterm, Bool.false_eq_true, if_false]
      exact ih (i + 1) (fun j hj1 hj2 => h j (by omega) (by omega))

/-- C4: for every call whose provider status never reaches a terminal state
within CALL_TIMEOUT_SECONDS of monitoring start, the call worker leaves the
lead in CALL_FAILED with a last_error that contains the timeout duration, and
writes exactly one call log entry, with status "timeout". -/
theorem C4_timeout_gives_call_failed (env : VoiceAgent.Env) (l : Lead)
    (now : Nat) (cid : String)
    (hmc : env.makeCall = .ok cid)
    (hpoll : ∀ i, i < pollLimit → VoiceAgent.isTerminalPoll (env.poll i) = false) :
    (leadAfter l now (VoiceAgent.process_lead env l now).2).status = .CALL_FAILED
    ∧ (leadAfter l now (VoiceAgent.process_lead env l now).2).lastError
        = some VoiceAgent.timeoutMsg
    ∧ countCallLogs (VoiceAgent.process_lead env l now).2 = 1
    ∧ callLogStatuses (VoiceAgent.process_lead env l now).2 = ["timeout"]
    ∧ strContains VoiceAgent.timeoutMsg (toString CALL_TIMEOUT_SECONDS) = true := by
  have hm := monitor_times_out env l.id now pollLimit 0
    (fun j hj1 hj2 => hpoll j (by omega))
  refine ⟨?_, ?_, ?_, ?_, by decide⟩ <;>
    simp [VoiceAgent.process_lead, hmc, hm, VoiceAgent.timeoutWrites, leadAfter,
      applyUpdate, VoiceAgent.claimFields, UF0, countCallLogs, callLogStatuses]

/-- Witness for C4: a provider that forever reports "in-progress". -/
theorem C4_timeout_gives_call_failed_witness :
    (leadAfter leadP1 0 (VoiceAgent.process_lead neverTerminalEnv leadP1 0).2).status
        = LeadStatus.CALL_FAILED
    ∧ (leadAfter leadP1 0 (VoiceAgent.process_lead neverTerminalEnv leadP1 0).2).lastError
        = some VoiceAgent.timeoutMsg
    ∧ countCallLogs (VoiceAgent.process_lead neverTerminalEnv leadP1 0).2 = 1
    ∧ callLogStatuses (VoiceAgent.process_lead neverTerminalEnv leadP1 0).2 = ["timeout"]
    ∧ strContains VoiceAgent.timeoutMsg (toString CALL_TIMEOUT_SECONDS) = true :=
  C4_timeout_gives_call_failed neverTerminalEnv leadP1 0 "call-t" rfl (fun _ _ => rfl)

/-- C5: a worker failure does not abort sibling leads or the scheduler cycle:
every launched lead of a cycle yields a result (no exception reaches the
gather, since process_lead converts every failure into writes), each launched
lead's complete independent result is among the cycle results, and a lead
whose provider initiate fails ends in CALL_FAILED with last_error populated
and its attempt counter incremented by one. -/
theorem C5_worker_failure_isolated :
    (∀ (envOf : Nat → VoiceAgent.Env) (a : Nat) (leads : List Lead) (now : Nat),
       (VoiceAgent.runCycle envOf a leads now).length
         = (VoiceAgent.launchList a MAX_CONCURRENT_CALLS leads).length)
    ∧ (∀ (envOf : Nat → VoiceAgent.Env) (a : Nat) (leads : List Lead) (now : Nat),
       ∀ l ∈ VoiceAgent.launchList a MAX_CONCURRENT_CALLS leads,
         VoiceAgent.process_lead (envOf l.id) l now
           ∈ VoiceAgent.runCycle envOf a leads now)
    ∧ (∀ (env : VoiceAgent.Env) (l : Lead) (now : Nat) (e : String),
         env.makeCall = .err e →
         (leadAfter l now (VoiceAgent.process_lead env l now).2).status = .CALL_FAILED
         ∧ (leadAfter l now (VoiceAgent.process_lead env l now).2).lastError = some e
         ∧ (leadAfter l now (VoiceAgent.process_lead env l now).2).callAttempts
             = l.callAttempts + 1) := by
  refine ⟨?_, ?_, ?_⟩
  · intro envOf a leads now
    simp [VoiceAgent.runCycle]
  · intro envOf a leads now l hl
    exact List.mem_map_of_mem _ hl
  · intro env l now e hmc
    refine ⟨?_, ?_, ?_⟩ <;>
      simp [VoiceAgent.process_lead, hmc, leadAfter, applyUpdate,
        VoiceAgent.claimFields, UF0]

/-- Witness for C5: the initiate-failure conjunct at a concrete environment. -/
theorem C5_worker_failure_isolated_witness :
    (leadAfter leadP1 0 (VoiceAgent.process_lead initFailEnv leadP1 0).2).status
        = LeadStatus.CALL_FAILED
    ∧ (leadAfter leadP1 0 (VoiceAgent.process_lead initFailEnv leadP1 0).2).lastError
        = some "provider rejected the request"
    ∧ (leadAfter leadP1 0 (VoiceAgent.process_lead initFailEnv leadP1 0).2).callAttempts
        = leadP1.callAttempts + 1 :=
  C5_worker_failure_isolated.2.2 initFailEnv leadP1 0 "provider rejected the request" rfl

/-- Every result of _process_call_results carries exactly one terminal status
update paired with exactly one call log, and no other effects. -/
theorem processResults_goodCounts (env : VoiceAgent.Env) (lid now : Nat)
    (st : String) (rs : List (String × VoiceAgent.TopicResponse))
    (se : Option (Nat × Nat)) :
    goodCounts (VoiceAgent.processCallResults env lid now st rs se) := by
  unfold VoiceAgent.processCallResults
  split
  · split
    · simp [goodCounts]
    · by_cases hi : VoiceAgent.interestedOf rs = true
      · simp [hi, goodCounts, countTerminalUpds, countCallLogs, countEntryLogs,
          countAddActive, countDelActive, terminalLeadStatus, List.filter]
      · simp [hi, goodCounts, countTerminalUpds, countCallLogs, countEntryLogs,
          countAddActive, countDelActive, terminalLeadStatus, List.filter]
  · simp [goodCounts, countTerminalUpds, countCallLogs, countEntryLogs,
      countAddActive, countDelActive, terminalLeadStatus, List.filter]

/-- Every successful monitoring result carries exactly one terminal status
update paired with one call log (timeout included); a raised exception
carries no writes. -/
theorem monitor_goodCounts (env : VoiceAgent.Env) (lid now : Nat) :
    ∀ fuel i, goodCounts (VoiceAgent.monitorCall env lid now fuel i) := by
  intro fuel
  induction fuel with
  | zero =>
    intro i
    simp [VoiceAgent.monitorCall, goodCounts, VoiceAgent.timeoutWrites,
      countTerminalUpds, countCallLogs, countEntryLogs, countAddActive,
      countDelActive, terminalLeadStatus, List.filter]
  | succ n ih =>
    intro i
    cases hp : env.poll i with
    | fail m =>
      simp only [VoiceAgent.monitorCall, hp]
      exact ih (i + 1)
    | ok st rs se =>
      simp only [VoiceAgent.monitorCall, hp]
      split
      · exact processResults_goodCounts env lid now st rs se
      · exact ih (i + 1)

/-- C2 counterexample: when the browser teardown raises after the entry body
already wrote its terminal pair, the except handler writes a second
ENTRY_FAILED update and a second log entry, so this invocation produces two
status updates and two log entries - the claim as stated fails on the entry
worker. -/
theorem C2_counterexample :
    teardownEnv.closeOk = false
    ∧ countTerminalUpds (DataEntryAgent.process_lead teardownEnv leadB 5).2 = 2
    ∧ countEntryLogs (DataEntryAgent.process_lead teardownEnv leadB 5).2 = 2 :=
  ⟨rfl, by decide, by decide⟩

/-- C2 amended: the call worker writes exactly one terminal status update
paired with exactly one call log on every exit path (initiation failure,
timeout, terminal provider state, raised exception during result
processing); the entry worker does the same on authentication failure,
submission success, submission failure and startup exception, provided the
browser-client teardown that runs after the body does not itself raise. -/
theorem C2_one_write_pair :
    (∀ (env : VoiceAgent.Env) (l : Lead) (now : Nat),
       countTerminalUpds (VoiceAgent.process_lead env l now).2 = 1
       ∧ countCallLogs (VoiceAgent.process_lead env l now).2 = 1
       ∧ countEntryLogs (VoiceAgent.process_lead env l now).2 = 0)
    ∧ (∀ (env : DataEntryAgent.Env) (l : Lead) (now : Nat),
         env.closeOk = true →
         countTerminalUpds (DataEntryAgent.process_lead env l now).2 = 1
         ∧ countEntryLogs (DataEntryAgent.process_lead env l now).2 = 1
         ∧ countCallLogs (DataEntryAgent.process_lead env l now).2 = 0) := by
  constructor
  · intro env l now
    cases hmc : env.makeCall with
    | err e =>
      refine ⟨?_, ?_, ?_⟩ <;>
        simp [VoiceAgent.process_lead, hmc, countTerminalUpds, countCallLogs,
          countEntryLogs, terminalLeadStatus, List.filter]
    | ok cid =>
      cases hm : VoiceAgent.monitorCall env l.id now pollLimit 0 with
      | error e =>
        refine ⟨?_, ?_, ?_⟩ <;>
          simp [VoiceAgent.process_lead, hmc, hm, countTerminalUpds, countCallLogs,
            countEntryLogs, terminalLeadStatus, List.filter]
      | ok p =>
        obtain ⟨b, ws⟩ := p
        have hg := monitor_goodCounts env l.id now pollLimit 0
        rw [hm] at hg
        simp only [goodCounts] at hg
        refine ⟨?_, ?_, ?_⟩
        · simp only [VoiceAgent.process_lead, hmc, hm, countTerminalUpds,
            List.filter_cons, List.filter_append, terminalLeadStatus,
            List.length_append]
          simpa [countTerminalUpds, terminalLeadStatus] using hg.1
        · simp only [VoiceAgent.process_lead, hmc, hm, countCallLogs,
            List.filter_cons, List.filter_append, List.length_append]
          simpa [countCallLogs] using hg.2.1
        · simp only [VoiceAgent.process_lead, hmc, hm, countEntryLogs,
            List.filter_cons, List.filter_append, List.length_append]
          simpa [countEntryLogs] using hg.2.2.1
  · intro env l now hclose
    by_cases hi : env.initOk
    · by_cases hl : env.loginOk
      · by_cases hs : (DataEntryAgent.submit_lead env).success
        · refine ⟨?_, ?_, ?_⟩ <;>
            simp [DataEntryAgent.process_lead, DataEntryAgent.entryBody, hi, hl,
              hs, hclose, countTerminalUpds, countEntryLogs, countCallLogs,
              terminalLeadStatus, List.filter, List.filter_append]
        · refine ⟨?_, ?_, ?_⟩ <;>
            simp [DataEntryAgent.process_lead, DataEntryAgent.entryBody, hi, hl,
              hs, hclose, countTerminalUpds, countEntryLogs, countCallLogs,
              terminalLeadStatus, List.filter, List.filter_append]
      · refine ⟨?_, ?_, ?_⟩ <;>
          simp [DataEntryAgent.process_lead, DataEntryAgent.entryBody, hi, hl,
            hclose, countTerminalUpds, countEntryLogs, countCallLogs,
            terminalLeadStatus, List.filter, List.filter_append]
    · refine ⟨?_, ?_, ?_⟩ <;>
        simp [DataEntryAgent.process_lead, DataEntryAgent.handlerWrites, hi,
          countTerminalUpds, countEntryLogs, countCallLogs,
          terminalLeadStatus, List.filter, List.filter_append]

/-- Witness for C2 amended: the entry conjunct at the Scenario B environment,
whose teardown succeeds. -/
theorem C2_one_write_pair_witness :
    countTerminalUpds (DataEntryAgent.process_lead scenarioBEnv leadB 5).2 = 1
    ∧ countEntryLogs (DataEntryAgent.process_lead scenarioBEnv leadB 5).2 = 1
    ∧ countCallLogs (DataEntryAgent.process_lead scenarioBEnv leadB 5).2 = 0 :=
  C2_one_write_pair.2 scenarioBEnv leadB 5 rfl

/-- C7: for every call reaching a terminal provider state, the worker defaults
"interested" to true and flips it to false exactly when an explicit "no" was
recorded for a designated interest topic; a "completed" call maps to
CONFIRMED when interested and NOT_INTERESTED otherwise (provided the
best-effort recording block raises no exception), any other terminal status
maps to CALL_FAILED; concretely, a completed call with an explicit "no" on
the education-interest topic leaves the lead NOT_INTERESTED with
call_attempts 1 and one call log row with status "completed". -/
theorem C7_outcome_classification :
    (∀ rs : List (String × VoiceAgent.TopicResponse),
       VoiceAgent.interestedOf rs = false
         ↔ ∃ p ∈ rs, p.1 ∈ VoiceAgent.interestTopics ∧ p.2.response = some "no")
    ∧ (∀ (env : VoiceAgent.Env) (lid now : Nat)
         (rs : List (String × VoiceAgent.TopicResponse)) (se : Option (Nat × Nat)),
         (∃ u, VoiceAgent.recordingOutcome env = .ok u) →
         resultStatus? (VoiceAgent.processCallResults env lid now "completed" rs se)
           = some (if VoiceAgent.interestedOf rs then .CONFIRMED else .NOT_INTERESTED))
    ∧ (∀ (env : VoiceAgent.Env) (lid now : Nat) (st : String)
         (rs : List (String × VoiceAgent.TopicResponse)) (se : Option (Nat × Nat)),
         st ∈ VoiceAgent.terminalStates → st ≠ "completed" →
         resultStatus? (VoiceAgent.processCallResults env lid now st rs se)
           = some .CALL_FAILED)
    ∧ ((leadAfter leadP1 0 (VoiceAgent.process_lead scenarioAEnv leadP1 0).2).status
         = .NOT_INTERESTED
       ∧ (leadAfter leadP1 0 (VoiceAgent.process_lead scenarioAEnv leadP1 0).2).callAttempts
           = 1
       ∧ countCallLogs (VoiceAgent.process_lead scenarioAEnv leadP1 0).2 = 1
       ∧ callLogStatuses (VoiceAgent.process_lead scenarioAEnv leadP1 0).2
           = ["completed"]) := by
  refine ⟨?_, ?_, ?_, by decide, by decide, by decide, by decide⟩
  · intro rs
    simp [VoiceAgent.interestedOf, List.any_eq_true, Bool.and_eq_true,
      beq_iff_eq, List.elem_iff]
  · intro env lid now rs se hok
    rcases hok with ⟨u, hr⟩
    unfold VoiceAgent.processCallResults
    by_cases hi : VoiceAgent.interestedOf rs
    · simp [hr, hi, resultStatus?]
    · simp [hr, hi, resultStatus?]
  · intro env lid now st rs se hterm hne
    have hbe : (st == "completed") = false := by
      simpa using hne
    unfold VoiceAgent.processCallResults
    simp [hbe, resultStatus?]

/-- Witness for C7: the completed-call mapping applied at the Scenario A
environment, whose recording block cannot raise. -/
theorem C7_outcome_classification_witness :
    resultStatus?
        (VoiceAgent.processCallResults scenarioAEnv 1 0 "completed"
          scenarioAResponses none)
      = some (if VoiceAgent.interestedOf scenarioAResponses
              then LeadStatus.CONFIRMED else LeadStatus.NOT_INTERESTED) :=
  C7_outcome_classification.2.1 scenarioAEnv 1 0 scenarioAResponses none
    ⟨none, rfl⟩

/-- C8 counterexample: the URL keywords are "thank you" (with a space),
"success", "submitted", "received", "confirmation", so a result URL
containing hyphenated "thank-you" matches none of them; with an error
keyword in the page content the classifier returns failure and the lead ends
ENTRY_FAILED - the claim that such a submission is classified as success is
false on this code. -/
theorem C8_counterexample :
    strContains c8Page.url "thank-you" = true
    ∧ DataEntryAgent.verify_submission_success c8Page = false
    ∧ (leadAfter leadB 5 (DataEntryAgent.process_lead c8FailEnv leadB 5).2).status
        = .ENTRY_FAILED :=
  ⟨by decide, by decide, by decide⟩

/-- C8 amended: the classifier evaluates its layers in order - URL keyword,
content keyword, success marker element, then absence of any error keyword
as default success; a result URL containing hyphenated "thank-you" matches
no URL keyword, and such a submission is classified success only when a
later layer decides success - as in Scenario B, where the benign page
content triggers the default-success fallback and the lead ends ENTERED with
entry_attempts 3 and the screenshot path carried in the submission result. -/
theorem C8_layered_classifier :
    (∀ p : DataEntryAgent.PageData,
       DataEntryAgent.verify_submission_success p = layeredClassifierSpec p)
    ∧ strContains scenBPage.url "thank-you" = true
    ∧ urlMatch scenBPage = false
    ∧ contentMatch scenBPage = false
    ∧ markerMatch scenBPage = false
    ∧ errorMatch scenBPage = false
    ∧ DataEntryAgent.verify_submission_success scenBPage = true
    ∧ (leadAfter leadB 5 (DataEntryAgent.process_lead scenarioBEnv leadB 5).2).status
        = .ENTERED
    ∧ (leadAfter leadB 5 (DataEntryAgent.process_lead scenarioBEnv leadB 5).2).entryAttempts
        = 3
    ∧ (DataEntryAgent.submit_lead scenarioBEnv).screenshot
        = some "logs/screenshots/lead_7_20250101000000.png" := by
  refine ⟨fun p => rfl, by decide, by decide, by decide, by decide, by decide,
    by decide, by decide, by decide, by decide⟩
